import Mathlib

/-
Verification of the TTLibs stepper driver (TTStepper).

The repository carries two revisions of the driver:
  * `src/mbed/ttstepper/ttstepper.{h,cpp}`      (June 2021)  - namespace `Mbed`
  * `src/MBed OS/ttstepper/ttstepper.{h,cpp}`   (Jan 2021)   - namespace `MbedOS`

Both are shallowly embedded below.  C `float` values are modelled as exact
rationals (the clamp structure of the speed updates makes the proved bounds
independent of rounding); machine integers are modelled as `Nat`/`Int`, with
the `long -> uint32_t` conversion in `MoveSteps` made explicit as `% 2^32`.
The mbed `Mutex` is recursive and every lock acquisition in the modelled
paths is assumed to succeed; interrupt-driven execution is modelled by an
explicit event stream (timer expiries and endstop edges) applied between the
synchronous steps of the API calls.  User callbacks only run foreign code and
are not part of the state.
-/

/-- Error and id codes from `src/mbed/ttstepper/ttstepper.h`. -/
def TTSTEPPER_SUCCESS : Int := 0

def TTSTEPPER_MUTEX_TIMEDOUT : Int := -1

def TTSTEPPER_INVALID_ID : Int := -2

def TTSTEPPER_ENDSTOP_NOT_REGISTERED : Int := -4

def TTSTEPPER_ENDSTOP_HIT : Int := -5

def TTSTEPPER_NO_FREE_ENDSTOPS : Int := -6

def TTSTEPPER_ALREADY_MOVING : Int := -7

def TTSTEPPER_LOWER_ENDSTOP : Int := 1

def TTSTEPPER_UPPER_ENDSTOP : Int := 2

def TTSTEPPER_CLOCKWISE : Bool := true

def TTSTEPPER_ANTI_CLOCKWISE : Bool := false

/-- The C cast `(uint32_t)x` applied to a nonnegative `float`/`double` value
truncates toward zero; `Int` division in Lean also truncates toward zero. -/
def floatToUInt32 (q : ℚ) : Nat := (q.num / (q.den : Int)).toNat

namespace Mbed

/-- The mutable fields of a `TTStepper` object in the June 2021 revision
(`src/mbed/ttstepper/ttstepper.h`, private section), together with the three
output pin levels and a flag recording whether the one-shot `stepTimout`
timer is armed.  `lowerRegistered`/`upperRegistered` record whether
`RegisterEndstop` has filled the corresponding `InterruptIn` slot. -/
structure MState where
  en : Bool
  stepPin : Bool
  dir : Bool
  enActiveLow : Bool
  stepActiveLow : Bool
  invertEndstops : Bool
  homing : Bool
  lowerRegistered : Bool
  upperRegistered : Bool
  endstopHit : Int
  endstopReleased : Int
  maxSpeed : ℚ
  minSpeed : ℚ
  homeSpeed : ℚ
  speedInterval : ℚ
  speed : ℚ
  stepsPerRev : Nat
  currentStep : Int
  remainingSteps : Nat
  slowStep : Nat
  moving : Bool
  reverse : Bool
  timerArmed : Bool

/-- `TTStepper::Stop` (ttstepper.cpp:203-206): clear `moving`, detach the
pending timer. -/
def Stop (s : MState) : MState :=
  { s with moving := false, timerArmed := false }

/-- `TTStepper::SetEnable` (ttstepper.cpp:27-41): `en = enActiveLow ? !enable
: enable` (the `en != NC` guard is taken to hold: the pin is wired). -/
def SetEnable (s : MState) (enable : Bool) : MState :=
  { s with en := if s.enActiveLow then !enable else enable }

/-- `TTStepper::Enable` (ttstepper.cpp:43-45). -/
def Enable (s : MState) : MState := SetEnable s true

/-- `TTStepper::Disable` (ttstepper.cpp:47-49). -/
def Disable (s : MState) : MState := SetEnable s false

/-- `TTStepper::ClearEndstopHit` (ttstepper.cpp:220-222). -/
def ClearEndstopHit (s : MState) : MState := { s with endstopHit := 0 }

/-- The move-start computation `uint32_t accelerationStopStep =
(maxSpeed - minSpeed) / speedInterval;` (ttstepper.cpp:282). -/
def accelerationStepsOf (s : MState) : Nat :=
  floatToUInt32 ((s.maxSpeed - s.minSpeed) / s.speedInterval)

/-- The speed update of `TTStepper::StepTimeoutHandler` (ttstepper.cpp:
316-331), evaluated on the state after the `remainingSteps--`: while more
than `slowStep` steps remain, `speed += speedInterval` clamped down to
`maxSpeed` (and left alone once at or above `maxSpeed`); otherwise
`speed -= speedInterval` clamped up to `minSpeed`. -/
def nextSpeed (s : MState) : ℚ :=
  if s.remainingSteps > s.slowStep then
    if s.speed < s.maxSpeed then
      if s.speed + s.speedInterval > s.maxSpeed then s.maxSpeed
      else s.speed + s.speedInterval
    else s.speed
  else
    if s.speed - s.speedInterval < s.minSpeed then s.minSpeed
    else s.speed - s.speedInterval

/-- The bookkeeping of one pulse (ttstepper.cpp:309-314): the step pin is
pulsed (`step = stepActiveLow ? false : true; step = !step;`), `currentStep`
moves by one in direction `dir`, and `remainingSteps` is decremented
(unconditionally in this revision). -/
def pulseState (s : MState) : MState :=
  { s with
      stepPin := !(if s.stepActiveLow then false else true)
      currentStep := if s.dir then s.currentStep + 1 else s.currentStep - 1
      remainingSteps := s.remainingSteps - 1 }

/-- `TTStepper::StepTimeoutHandler` (ttstepper.cpp:307-345): one timer expiry.
If steps remain: perform the pulse bookkeeping (`pulseState`), update `speed`
by `nextSpeed`, and re-arm the timer for the next period
(`1e6 / (stepsPerRev * (homing ? homeSpeed : speed))` microseconds).
Otherwise `Stop()`. -/
def StepTimeoutHandler (s : MState) : MState :=
  if s.remainingSteps ≠ 0 then
    { pulseState s with speed := nextSpeed (pulseState s), timerArmed := true }
  else
    Stop s

/-- The state-arming block of `TTStepper::Step` (ttstepper.cpp:274-290),
executed when both guards pass, before the synchronous first
`StepTimeoutHandler()` call.  `accelerationStopStep` is a `uint32_t`, so the
source's comparison `steps > accelerationStopStep * 2` (ttstepper.cpp:283)
is unsigned 32-bit arithmetic: the product wraps modulo `2^32`. -/
def armMove (s : MState) (steps : Nat) (direction : Bool) : MState :=
  let s := { s with moving := true }
  let s := Enable s
  let s := { s with dir := if !s.reverse then direction else !direction }
  let s := { s with remainingSteps := steps }
  let s := { s with slowStep :=
    if steps > accelerationStepsOf s * 2 % 2 ^ 32 then accelerationStepsOf s
    else steps / 2 }
  { s with speed := s.minSpeed }

/-- `TTStepper::Step` (ttstepper.cpp:270-305).  The outer guard is
`if(!endstopHit | homing)` (a bitwise-or of `endstopHit == 0` and `homing`);
the inner guard is `if(!moving)`.  On acceptance the motion state is armed
and the first pulse is emitted synchronously. -/
def Step (s : MState) (steps : Nat) (direction : Bool) : Int × MState :=
  if s.endstopHit = 0 ∨ s.homing = true then
    if s.moving = false then
      (TTSTEPPER_SUCCESS, StepTimeoutHandler (armMove s steps direction))
    else
      (TTSTEPPER_ALREADY_MOVING, s)
  else
    (TTSTEPPER_ENDSTOP_HIT, s)

/-- `TTStepper::MoveSteps(long steps)` (ttstepper.cpp:157-162): calls
`Step(steps, steps < 0 ? ANTI_CLOCKWISE : CLOCKWISE)`.  `Step` takes
`uint32_t`, so the signed argument is converted modulo `2^32`. -/
def MoveSteps (s : MState) (steps : Int) : Int × MState :=
  Step s (steps % (2 : Int) ^ 32).toNat
    (if steps < 0 then TTSTEPPER_ANTI_CLOCKWISE else TTSTEPPER_CLOCKWISE)

/-- `TTStepper::Endstop` (ttstepper.cpp:347-364): apply `invertEndstops` to
the edge polarity; a triggering edge stops the sequencer and records
`endstopHit`; a releasing edge records `endstopReleased` only.  The enable
output is not touched in this revision. -/
def Endstop (s : MState) (id : Int) (rise : Bool) : MState :=
  if (if s.invertEndstops then !rise else rise) then
    { Stop s with endstopHit := id }
  else
    { s with endstopReleased := id }

/-- The interrupt sources that can fire between (or inside) API calls: a
step-timer expiry, and the four endstop edge ISRs
(ttstepper.cpp:366-380, which call `Endstop` with ids 1/2). -/
inductive MEvent where
  | timer
  | lowerRise
  | lowerFall
  | upperRise
  | upperFall

/-- Deliver one interrupt: the timer callback only runs while attached. -/
def applyEvent (s : MState) : MEvent → MState
  | .timer => if s.timerArmed then StepTimeoutHandler s else s
  | .lowerRise => Endstop s TTSTEPPER_LOWER_ENDSTOP true
  | .lowerFall => Endstop s TTSTEPPER_LOWER_ENDSTOP false
  | .upperRise => Endstop s TTSTEPPER_UPPER_ENDSTOP true
  | .upperFall => Endstop s TTSTEPPER_UPPER_ENDSTOP false

def applyEvents (s : MState) (evs : List MEvent) : MState :=
  evs.foldl applyEvent s

/-- `TTStepper::WaitBlocking` (ttstepper.cpp:192-201) sleeps until `moving`
is false; the interrupts delivered while it waits are supplied by the
environment as an event list. -/
def WaitBlocking (s : MState) (evs : List MEvent) : MState := applyEvents s evs

/-- `k` successive timer expiries of an uninterrupted move:
`StepTimeoutHandler` applied `k` times. -/
def handlerIter : Nat → MState → MState
  | 0, s => s
  | k + 1, s => handlerIter k (StepTimeoutHandler s)

/-- The guard of the seek loop `while(endstop->read() == !invertEndstops)`
(ttstepper.cpp:115), as a function of the sampled input level. -/
def seekContinue (s : MState) (level : Bool) : Bool := level = !s.invertEndstops

/-- The guard of the bounce loop `while(endstop->read() == invertEndstops)`
(ttstepper.cpp:127). -/
def bounceContinue (s : MState) (level : Bool) : Bool := level = s.invertEndstops

/-- Whether a sampled input level means "triggered", per the polarity
convention of `TTStepper::Endstop` (ttstepper.cpp:348:
`rise = invertEndstops ? !rise : rise`): with `invertEndstops == false` a
rising edge - a high level - is a trigger, and inverting flips it. -/
def triggeredLevel (s : MState) (level : Bool) : Bool :=
  if s.invertEndstops then !level else level

/-- Outcome of one of `Home`'s polling loops: `done i s` when the guard
failed (having consumed the sample at index `i - 1`), `early i code s` when
an iteration's `Step` reported `ALREADY_MOVING` and `Home` returns it. -/
inductive LoopOut where
  | done (i : Nat) (s : MState)
  | early (i : Nat) (code : Int) (s : MState)

/-- One polling loop of `TTStepper::Home` (ttstepper.cpp:115-122 with
`seekPhase = true`, ttstepper.cpp:127-134 with `seekPhase = false`): while
the sampled endstop level equals `!invertEndstops` (seek) resp.
`invertEndstops` (bounce), issue `Step(1000000000, dirn)` and block in
`WaitBlocking`, during which the environment delivers `waits i`.  Each
`endstop->read()` call consumes the next sample of `reads`.  `none` means
the fuel ran out (the loop did not terminate within `fuel` samples). -/
def homeLoop (reads : Nat → Bool) (waits : Nat → List MEvent) (seekPhase : Bool)
    (dirn : Bool) : Nat → Nat → MState → Option LoopOut
  | 0, _, _ => none
  | fuel + 1, i, s =>
    if reads i = (if seekPhase then !s.invertEndstops else s.invertEndstops) then
      match Step s 1000000000 dirn with
      | (retVal, s1) =>
        if retVal = TTSTEPPER_ALREADY_MOVING then
          some (.early (i + 1) retVal s1)
        else
          homeLoop reads waits seekPhase dirn fuel (i + 1) (WaitBlocking s1 (waits i))
    else
      some (.done (i + 1) s)

/-- The tail of a successful `Home` (ttstepper.cpp:145-151): `currentStep =
0`, `ClearEndstopHit()`, `homing = false`. -/
def homeFinish (s : MState) : MState :=
  { ClearEndstopHit { s with currentStep := 0 } with homing := false }

/-- The tail of `Home` after both polling loops (ttstepper.cpp:136-154): the
extra `Step(bounceSteps, CLOCKWISE)` move (its error code propagated if not
`SUCCESS`), one more `WaitBlocking`, then `homeFinish`. -/
def bounceFinish (bounceSteps : Nat) (waits : Nat → List MEvent) (j : Nat) (s2 : MState) :
    Option (Int × MState) :=
  match Step s2 bounceSteps TTSTEPPER_CLOCKWISE with
  | (retVal, s3) =>
    if retVal ≠ TTSTEPPER_SUCCESS then
      some (retVal, s3)
    else
      some (TTSTEPPER_SUCCESS, homeFinish (WaitBlocking s3 (waits j)))

/-- Dispatch on the bounce loop's outcome: an `ALREADY_MOVING` early return
propagates (ttstepper.cpp:129-132), otherwise `bounceFinish`. -/
def afterBounce (bounceSteps : Nat) (waits : Nat → List MEvent) :
    LoopOut → Option (Int × MState)
  | .early _ code s2 => some (code, s2)
  | .done j s2 => bounceFinish bounceSteps waits j s2

/-- Dispatch on the seek loop's outcome: an `ALREADY_MOVING` early return
propagates (ttstepper.cpp:117-120), otherwise the bounce loop runs. -/
def afterSeek (bounceSteps : Nat) (reads : Nat → Bool) (waits : Nat → List MEvent)
    (fuel2 : Nat) : LoopOut → Option (Int × MState)
  | .early _ code s1 => some (code, s1)
  | .done i s1 =>
    match homeLoop reads waits false TTSTEPPER_CLOCKWISE fuel2 i s1 with
    | none => none
    | some lo2 => afterBounce bounceSteps waits lo2

/-- The body of `TTStepper::Home` after the endstop-registration checks
(ttstepper.cpp:110-154): `Stop()`, the seek loop (anticlockwise), then
`afterSeek` (the bounce loop, the extra move and `homeFinish`). -/
def homeBody (s : MState) (bounceSteps : Nat) (reads : Nat → Bool)
    (waits : Nat → List MEvent) (fuel1 fuel2 : Nat) : Option (Int × MState) :=
  match homeLoop reads waits true TTSTEPPER_ANTI_CLOCKWISE fuel1 0 (Stop s) with
  | none => none
  | some lo1 => afterSeek bounceSteps reads waits fuel2 lo1

/-- `TTStepper::Home(bounceSteps, endstopId)` (ttstepper.cpp:80-155).
`homing` is set first, unconditionally; then the endstop id is validated
against the registered slots (returning with `homing` still set on the error
paths, as the source does); then `homeBody` runs.  The environment supplies
the `endstop->read()` samples and the interrupts delivered inside each
`WaitBlocking`. -/
def Home (s0 : MState) (bounceSteps : Nat) (endstopId : Int) (reads : Nat → Bool)
    (waits : Nat → List MEvent) (fuel1 fuel2 : Nat) : Option (Int × MState) :=
  if endstopId = TTSTEPPER_LOWER_ENDSTOP then
    if s0.lowerRegistered = false then
      some (TTSTEPPER_ENDSTOP_NOT_REGISTERED, { s0 with homing := true })
    else
      homeBody { s0 with homing := true } bounceSteps reads waits fuel1 fuel2
  else if endstopId = TTSTEPPER_UPPER_ENDSTOP then
    if s0.upperRegistered = false then
      some (TTSTEPPER_ENDSTOP_NOT_REGISTERED, { s0 with homing := true })
    else
      homeBody { s0 with homing := true } bounceSteps reads waits fuel1 fuel2
  else
    some (TTSTEPPER_INVALID_ID, { s0 with homing := true })

end Mbed

namespace MbedOS

/-- Codes from `src/MBed OS/TTStepper/ttstepper.h`. -/
def TTSTEPPER_SUCCESS : Int := 0

def TTSTEPPER_ERROR_NO_FREE_ENDSTOPS : Int := -1

def TTSTEPPER_ERROR_MUTEX_TIMEOUT : Int := -2

def TTSTEPPER_ERROR_ALREADY_TRAVELLING : Int := -3

def TTSTEPPER_ERROR_ENDSTOP_HIT : Int := -5

def TTSTEPPER_ERROR_HOMING_TIMEOUT : Int := -6

def TTSTEPPER_ALREADY_HOMING : Int := -9

/-- The mutable fields of a `TTStepper` object in the Jan 2021 revision
(`src/MBed OS/TTStepper/ttstepper.h`, private section), with the output pin
levels, the one-shot `timeout` timer's armed flag, and the two `eventFlags`
bits (`TTSTEPPER_HOMED_FLAG`, `TTSTEPPER_TRAVEL_ENDED_FLAG`).  In this
revision `RegisterEndstop` hands out endstop ids 0 (lower) and 1 (upper). -/
structure OState where
  en : Bool
  stepPin : Bool
  dir : Bool
  enActiveLow : Bool
  activeBraking : Bool
  invertEndstops : Bool
  invertRotation : Bool
  homing : Bool
  endstopHit : Int
  endstopReleased : Int
  rpsMax : ℚ
  minRps : ℚ
  rpsInterval : ℚ
  rps : ℚ
  stepsPerRevolution : Nat
  currentStep : Int
  remainingSteps : Nat
  accelerationSteps : Nat
  decelerationStep : Nat
  travelling : Bool
  timerArmed : Bool
  homedFlagSet : Bool
  travelEndedFlagSet : Bool

/-- `TTStepper::StepISR` (ttstepper.cpp:544-592): one timer expiry.  If steps
remain: pulse the step pin, move `currentStep` by one in direction `dir`,
decrement `remainingSteps` unless `homing`, update `rps` (accelerate while
more than `decelerationStep` steps remain, clamping at `rpsMax`; otherwise
decelerate while above `minRps`, resetting to `minRps` only if the result
went below `0.0f`), and re-arm the timer.  Otherwise clear `travelling`, set
the travel-ended event flag, and de-energize the driver unless
`activeBraking`.  The velocity update (ttstepper.cpp:556-578) is factored
out as `nextRps`, evaluated on the state after the conditional decrement:
while more than `decelerationStep` steps remain, `rps += rpsInterval`
clamped down to `rpsMax`; otherwise, while `rps > minRps`,
`rps -= rpsInterval`, reset to `minRps` only if the result fell below
`0.0f`. -/
def nextRps (s : OState) : ℚ :=
  if s.remainingSteps > s.decelerationStep then
    if s.rps < s.rpsMax then
      if s.rps + s.rpsInterval ≥ s.rpsMax then s.rpsMax
      else s.rps + s.rpsInterval
    else s.rps
  else
    if s.rps > s.minRps then
      if s.rps - s.rpsInterval < 0 then s.minRps
      else s.rps - s.rpsInterval
    else s.rps

/-- The first half of a pulse in `StepISR` (ttstepper.cpp:546-549):
`step = 1; step = 0;` and the `currentStep` move. -/
def pulsedOState (s : OState) : OState :=
  { s with
      stepPin := false
      currentStep := if s.dir then s.currentStep + 1 else s.currentStep - 1 }

/-- The conditional decrement of `StepISR` (ttstepper.cpp:551-554):
"If homing, don't decrement steps." -/
def decremented (s : OState) : OState :=
  if !s.homing then { s with remainingSteps := s.remainingSteps - 1 } else s

def StepISR (s : OState) : OState :=
  if s.remainingSteps ≠ 0 then
    { decremented (pulsedOState s) with
        rps := nextRps (decremented (pulsedOState s))
        timerArmed := true }
  else
    if !s.activeBraking then
      { s with travelling := false, travelEndedFlagSet := true, en := s.enActiveLow }
    else
      { s with travelling := false, travelEndedFlagSet := true }

/-- The state-arming block of `TTStepper::Step` (ttstepper.cpp:509-526),
executed when both guards pass: re-energize when `activeBraking`, set
`travelling`, arm `remainingSteps` and `dir`,
`decelerationStep = min(steps / 2, accelerationSteps)` (the if/else at lines
518-524), and reset `rps` to `minRps`. -/
def armTravel (s : OState) (steps : Nat) (direciton : Bool) : OState :=
  { (if s.activeBraking then { s with en := !s.enActiveLow } else s) with
      travelling := true
      remainingSteps := steps
      dir := if s.invertRotation then !direciton else direciton
      decelerationStep :=
        if s.accelerationSteps > steps / 2 then steps / 2 else s.accelerationSteps
      rps := s.minRps }

/-- `TTStepper::Step` (ttstepper.cpp:500-542).  The outer guard is
`if(!endstopHit)`, the inner `if(!travelling)`; on acceptance the motion
state is armed by `armTravel` and the first pulse emitted synchronously by
`StepISR()`. -/
def Step (s : OState) (steps : Nat) (direciton : Bool) : Int × OState :=
  if s.endstopHit = 0 then
    if s.travelling = false then
      (TTSTEPPER_SUCCESS, StepISR (armTravel s steps direciton))
    else
      (TTSTEPPER_ERROR_ALREADY_TRAVELLING, s)
  else
    (TTSTEPPER_ERROR_ENDSTOP_HIT, s)

/-- `TTStepper::Endstop` (ttstepper.cpp:607-637): apply `invertEndstops`; on
a triggering edge set the enable output according to `activeBraking`
(energized when braking actively, de-energized otherwise), detach the pending
timer, end a homing run (setting the homed event flag), end a travel (setting
the travel-ended event flag), and record `endstopHit`; on a releasing edge
record `endstopReleased` only.  The pieces are factored below.

The first actions of a triggering edge (ttstepper.cpp:610-614): "If
non-active braking, disable the stepper" (`en = activeBraking ? !enActiveLow
: enActiveLow`), and detach the pending timer. -/
def endstopStopped (s : OState) : OState :=
  { s with
      en := if s.activeBraking then !s.enActiveLow else s.enActiveLow
      timerArmed := false }

/-- Ending a homing run on a triggering edge (ttstepper.cpp:616-619). -/
def endstopHomedFlag (s : OState) : OState :=
  if s.homing then { s with homing := false, homedFlagSet := true } else s

/-- Ending a travel on a triggering edge (ttstepper.cpp:621-624). -/
def endstopTravelFlag (s : OState) : OState :=
  if s.travelling then { s with travelling := false, travelEndedFlagSet := true } else s

def Endstop (s : OState) (id : Int) (rise : Bool) : OState :=
  if (if s.invertEndstops then !rise else rise) then
    { endstopTravelFlag (endstopHomedFlag (endstopStopped s)) with endstopHit := id }
  else
    { s with endstopReleased := id }

/-- Interrupt sources of this revision; the endstop ISRs
(ttstepper.cpp:639-653) call `Endstop` with ids 0 (lower) and 1 (upper). -/
inductive OEvent where
  | timer
  | lowerRise
  | lowerFall
  | upperRise
  | upperFall

def applyOEvent (s : OState) : OEvent → OState
  | .timer => if s.timerArmed then StepISR s else s
  | .lowerRise => Endstop s 0 true
  | .lowerFall => Endstop s 0 false
  | .upperRise => Endstop s 1 true
  | .upperFall => Endstop s 1 false

def applyOEvents (s : OState) (evs : List OEvent) : OState :=
  evs.foldl applyOEvent s

/-- `k` successive timer expiries: `StepISR` applied `k` times. -/
def isrIter : Nat → OState → OState
  | 0, s => s
  | k + 1, s => isrIter k (StepISR s)

/-- `TTStepper::Home(timeout, direction)` (ttstepper.cpp:266-289).  A homing
run already in progress is rejected with `TTSTEPPER_ALREADY_HOMING` and the
state untouched.  Otherwise `homing` is set, `Step(1, direction)` issued (its
result ignored by the source), and the thread blocks on the homed event flag;
the environment supplies the interrupts `evs` delivered while it waits, and
the wait succeeds iff they left the homed flag set (consuming it).  On
success `currentStep` is zeroed, `endstopHit` cleared and `homing` cleared;
on timeout `homing` is cleared and the timeout error returned.  `homeWaited`
is the state as the wait ends; `Home` itself follows. -/
def homeWaited (s0 : OState) (direction : Bool) (evs : List OEvent) : OState :=
  applyOEvents (Step { s0 with homing := true } 1 direction).2 evs

def Home (s0 : OState) (direction : Bool) (evs : List OEvent) : Int × OState :=
  if s0.homing = true then
    (TTSTEPPER_ALREADY_HOMING, s0)
  else
    if (homeWaited s0 direction evs).homedFlagSet = true then
      (TTSTEPPER_SUCCESS,
        { homeWaited s0 direction evs with
            homedFlagSet := false
            currentStep := 0
            endstopHit := 0
            homing := false })
    else
      (TTSTEPPER_ERROR_HOMING_TIMEOUT, { homeWaited s0 direction evs with homing := false })

end MbedOS

/-
Concrete states used by the witnesses and counterexamples below.  Speeds are
chosen to be values exactly representable both as `float`s and as small
rationals, reachable through the public setters.
-/

/-- An idle mbed-revision stepper: nothing latched, no move in flight, one
(lower) endstop registered, configuration
`maxSpeed = minSpeed = homeSpeed = speedInterval = 1`. -/
def mbedIdle : Mbed.MState := {
  en := true
  stepPin := true
  dir := true
  enActiveLow := true
  stepActiveLow := true
  invertEndstops := false
  homing := false
  lowerRegistered := true
  upperRegistered := false
  endstopHit := 0
  endstopReleased := 0
  maxSpeed := 1
  minSpeed := 1
  homeSpeed := 1
  speedInterval := 1
  speed := 1
  stepsPerRev := 200
  currentStep := 0
  remainingSteps := 0
  slowStep := 0
  moving := false
  reverse := false
  timerArmed := false }

/-- `mbedIdle` after `Step(3, CLOCKWISE)` was accepted: energized
(`en = false` with `enActiveLow`), first pulse taken, two steps left. -/
def mbedAfterStep3 : Mbed.MState := { mbedIdle with
  en := false
  currentStep := 1
  remainingSteps := 2
  moving := true
  timerArmed := true }

/-- The idle stepper with the configuration of the spec scenario:
`maxSpeed = 1`, `minSpeed = 0.1`, `accelerationInterval = 0.01`. -/
def mbedSpecCfg : Mbed.MState := { mbedIdle with
  maxSpeed := 1
  minSpeed := 1/10
  speedInterval := 1/100
  speed := 1/10 }

/-- `mbedSpecCfg` after `Step(3, CLOCKWISE)` was accepted:
`slowStep = 3 / 2 = 1`, one pulse taken, speed accelerated one interval. -/
def mbedSpecAfterStep3 : Mbed.MState := { mbedSpecCfg with
  en := false
  speed := 11/100
  currentStep := 1
  remainingSteps := 2
  slowStep := 1
  moving := true
  timerArmed := true }

/-- The idle stepper reconfigured so that the `uint32_t` move-start product
`accelerationStopStep * 2` wraps: `maxSpeed = 3221225472` (`3 * 2^30`),
`minSpeed = 1073741824` (`2^30`) and `speedInterval = 1` — all exactly
representable floats — give `accelerationStopStep = 2^31`, whose unsigned
double is `2^32 ≡ 0 (mod 2^32)`. -/
def mbedWrapCfg : Mbed.MState := { mbedIdle with
  maxSpeed := 3221225472
  minSpeed := 1073741824
  speed := 1073741824 }

/-- An idle stepper with a latched lower-endstop hit. -/
def mbedLatched : Mbed.MState := { mbedIdle with endstopHit := 1 }

/-- An idle stepper with `homing` set. -/
def mbedHoming : Mbed.MState := { mbedIdle with homing := true }

/-- A stepper mid-move with a simultaneously latched lower-endstop hit. -/
def mbedMovingLatched : Mbed.MState := { mbedIdle with
  endstopHit := 1
  remainingSteps := 5
  moving := true
  timerArmed := true }

/-- A stepper mid-way through a homing move (five steps still armed). -/
def mbedHomingPulse : Mbed.MState := { mbedIdle with
  homing := true
  remainingSteps := 5
  moving := true
  timerArmed := true }

/-- A stepper mid-way through a homing run: `homing` set, an (effectively
unbounded) homing move in flight, position counter at 7. -/
def mbedHomingRun : Mbed.MState := { mbedIdle with
  homing := true
  currentStep := 7
  remainingSteps := 1000
  moving := true
  timerArmed := true }

/-- Endstop levels sampled by a successful `Home(2, LOWER)` run on
`mbedIdle`: triggered at the first seek check, released at the second;
released at the first bounce check, triggered (other end) at the second. -/
def homeReads (i : Nat) : Bool := i == 0 || i == 3

/-- Interrupts delivered during the successive `WaitBlocking` calls of that
run: the seek move is cut short by the lower endstop, the bounce move by the
upper endstop, and the final two-step bounce move runs to completion on two
timer expiries. -/
def homeWaits (i : Nat) : List Mbed.MEvent :=
  if i = 0 then [.lowerRise]
  else if i = 2 then [.lowerFall, .upperRise]
  else if i = 4 then [.timer, .timer]
  else []

/-- The state in which that `Home(2, LOWER)` run ends. -/
def mbedHomeFinal : Mbed.MState := { mbedIdle with
  en := false
  endstopReleased := 1 }

/-- Endstop levels for a `Home(2, LOWER)` call issued while `mbedHomingRun`
is already homing: released at the seek and first bounce checks, triggered at
the second bounce check. -/
def hijackReads (i : Nat) : Bool := i == 2

/-- Interrupts for that run: the bounce move is cut short by the upper
endstop; the final two-step move completes on two timer expiries. -/
def hijackWaits (i : Nat) : List Mbed.MEvent :=
  if i = 1 then [.upperRise] else if i = 3 then [.timer, .timer] else []

/-- The state of a `Home(2, LOWER)` call on `mbedIdle` after the entry
`homing = true` and `Stop()` (both already false flags). -/
def wStopped : Mbed.MState := { mbedIdle with homing := true }

/-- The successful homing run, stage 0b: right after the accepted seek
`Step(1000000000, ANTI_CLOCKWISE)`. -/
def wSeekStep : Mbed.MState := { mbedIdle with
  en := false
  dir := false
  homing := true
  currentStep := -1
  remainingSteps := 999999999
  moving := true
  timerArmed := true }

/-- Stage 1b: right after the accepted bounce `Step(1000000000, CLOCKWISE)`. -/
def wBounceStep : Mbed.MState := { mbedIdle with
  en := false
  dir := true
  homing := true
  endstopHit := 1
  currentStep := 0
  remainingSteps := 999999999
  moving := true
  timerArmed := true }

/-- Hijack run: right after its accepted bounce `Step(1000000000, CLOCKWISE)`. -/
def hBounceStep : Mbed.MState := { mbedIdle with
  en := false
  homing := true
  currentStep := 8
  remainingSteps := 999999999
  moving := true
  timerArmed := true }

/-- The successful homing run, stage 1: state when the seek loop exits (the
seek move was cut short by the lower endstop after one pulse
anticlockwise). -/
def wSeekEnd : Mbed.MState := { mbedIdle with
  en := false
  dir := false
  homing := true
  endstopHit := 1
  currentStep := -1
  remainingSteps := 999999999 }

/-- Stage 2: state when the bounce loop exits (one pulse clockwise, lower
endstop released, upper endstop cut the move short). -/
def wBounceEnd : Mbed.MState := { mbedIdle with
  en := false
  dir := true
  homing := true
  endstopHit := 2
  endstopReleased := 1
  currentStep := 0
  remainingSteps := 999999999 }

/-- Stage 3: state right after the accepted final `Step(2, CLOCKWISE)`. -/
def wFinalStep : Mbed.MState := { mbedIdle with
  en := false
  homing := true
  endstopHit := 2
  endstopReleased := 1
  currentStep := 1
  remainingSteps := 1
  moving := true
  timerArmed := true }

/-- Stage 4: state once the final move's `WaitBlocking` returns. -/
def wDone : Mbed.MState := { mbedIdle with
  en := false
  homing := true
  endstopHit := 2
  endstopReleased := 1
  currentStep := 2 }

/-- The re-entrant (hijacking) homing run, stage 1: seek-loop exit (zero
iterations; `Stop()` already killed the in-flight move). -/
def hSeekEnd : Mbed.MState := { mbedIdle with
  homing := true
  currentStep := 7
  remainingSteps := 1000 }

/-- Hijack stage 2: bounce-loop exit (one pulse clockwise, cut short by the
upper endstop). -/
def hBounceEnd : Mbed.MState := { mbedIdle with
  en := false
  homing := true
  endstopHit := 2
  currentStep := 8
  remainingSteps := 999999999 }

/-- Hijack stage 3: right after the accepted final `Step(2, CLOCKWISE)`. -/
def hFinalStep : Mbed.MState := { mbedIdle with
  en := false
  homing := true
  endstopHit := 2
  currentStep := 9
  remainingSteps := 1
  moving := true
  timerArmed := true }

/-- Hijack stage 4: once the final move's `WaitBlocking` returns. -/
def hDone : Mbed.MState := { mbedIdle with
  en := false
  homing := true
  endstopHit := 2
  currentStep := 10 }

/-- The state in which the re-entrant `Home(2, LOWER)` run ends. -/
def hijackFinal : Mbed.MState := { mbedIdle with en := false }

/-- An idle MBed OS-revision stepper with `rpsMax = 1`, `minRps = 0.5`,
`rpsInterval = 0.4` and `accelerationSteps = floor(rpsMax / rpsInterval) = 2`
(reachable via `SetMaxRPS(1.0, 0.5)` and `SetRPSS(0.75)`, which make
`rpssT = 1.25` and `rpsInterval = minRps / rpssT = 0.4` exactly). -/
def osRampCfg : MbedOS.OState := {
  en := true
  stepPin := true
  dir := true
  enActiveLow := true
  activeBraking := true
  invertEndstops := false
  invertRotation := false
  homing := false
  endstopHit := 0
  endstopReleased := 0
  rpsMax := 1
  minRps := 1/2
  rpsInterval := 2/5
  rps := 1/2
  stepsPerRevolution := 200
  currentStep := 0
  remainingSteps := 0
  accelerationSteps := 2
  decelerationStep := 0
  travelling := false
  timerArmed := false
  homedFlagSet := false
  travelEndedFlagSet := false }

/-- An MBed OS stepper travelling with `activeBraking` enabled (energized:
`en = false` with `enActiveLow`). -/
def osBrakingTravel : MbedOS.OState := { osRampCfg with
  en := false
  remainingSteps := 5
  travelling := true
  timerArmed := true }

/-- An MBed OS stepper mid-way through a homing move. -/
def osHomingPulse : MbedOS.OState := { osRampCfg with
  homing := true
  remainingSteps := 1
  travelling := true
  timerArmed := true }

/-- An MBed OS stepper already homing. -/
def osHomingActive : MbedOS.OState := { osRampCfg with
  homing := true
  travelling := true
  timerArmed := true }

/-- An MBed OS stepper travelling. -/
def osTravelling : MbedOS.OState := { osRampCfg with
  en := false
  remainingSteps := 5
  travelling := true
  timerArmed := true }

namespace Mbed

theorem pulseState_fields (s : MState) :
    (pulseState s).currentStep = (if s.dir then s.currentStep + 1 else s.currentStep - 1) ∧
    (pulseState s).remainingSteps = s.remainingSteps - 1 ∧
    (pulseState s).dir = s.dir ∧ (pulseState s).moving = s.moving ∧
    (pulseState s).speed = s.speed ∧ (pulseState s).minSpeed = s.minSpeed ∧
    (pulseState s).maxSpeed = s.maxSpeed ∧ (pulseState s).speedInterval = s.speedInterval :=
  ⟨rfl, rfl, rfl, rfl, rfl, rfl, rfl, rfl⟩

theorem handler_preserved (s : MState) :
    (StepTimeoutHandler s).dir = s.dir ∧
    (StepTimeoutHandler s).minSpeed = s.minSpeed ∧
    (StepTimeoutHandler s).maxSpeed = s.maxSpeed ∧
    (StepTimeoutHandler s).speedInterval = s.speedInterval ∧
    (StepTimeoutHandler s).slowStep = s.slowStep ∧
    (StepTimeoutHandler s).homing = s.homing ∧
    (StepTimeoutHandler s).reverse = s.reverse := by
  unfold StepTimeoutHandler
  split_ifs <;> exact ⟨rfl, rfl, rfl, rfl, rfl, rfl, rfl⟩

theorem handler_pulse (s : MState) (h : s.remainingSteps ≠ 0) :
    (StepTimeoutHandler s).currentStep
      = (if s.dir then s.currentStep + 1 else s.currentStep - 1) ∧
    (StepTimeoutHandler s).remainingSteps = s.remainingSteps - 1 ∧
    (StepTimeoutHandler s).moving = s.moving ∧
    (StepTimeoutHandler s).speed = nextSpeed (pulseState s) := by
  unfold StepTimeoutHandler
  rw [if_pos h]
  exact ⟨rfl, rfl, rfl, rfl⟩

theorem handler_zero (s : MState) (h : s.remainingSteps = 0) :
    StepTimeoutHandler s = Stop s := by
  unfold StepTimeoutHandler
  rw [if_neg (by simp [h])]

theorem nextSpeed_mem (s : MState) (hms : s.minSpeed ≤ s.maxSpeed)
    (hint : 0 ≤ s.speedInterval) (h1 : s.minSpeed ≤ s.speed) (h2 : s.speed ≤ s.maxSpeed) :
    s.minSpeed ≤ nextSpeed s ∧ nextSpeed s ≤ s.maxSpeed := by
  unfold nextSpeed
  split_ifs <;> constructor <;> linarith

theorem handler_speed_mem (s : MState) (hms : s.minSpeed ≤ s.maxSpeed)
    (hint : 0 ≤ s.speedInterval) (h1 : s.minSpeed ≤ s.speed) (h2 : s.speed ≤ s.maxSpeed) :
    s.minSpeed ≤ (StepTimeoutHandler s).speed ∧ (StepTimeoutHandler s).speed ≤ s.maxSpeed := by
  rcases Nat.eq_zero_or_pos s.remainingSteps with h0 | hpos
  · rw [handler_zero s h0]
    exact ⟨h1, h2⟩
  · obtain ⟨-, -, -, hsp⟩ := handler_pulse s (by omega)
    rw [hsp]
    obtain ⟨-, -, -, -, e4, e1, e2, e3⟩ := pulseState_fields s
    have := nextSpeed_mem (pulseState s) (by rw [e1, e2]; exact hms) (by rw [e3]; exact hint)
      (by rw [e1, e4]; exact h1) (by rw [e2, e4]; exact h2)
    rw [e1, e2] at this
    exact this

theorem handlerIter_preserved (k : Nat) (s : MState) :
    (handlerIter k s).dir = s.dir ∧
    (handlerIter k s).minSpeed = s.minSpeed ∧
    (handlerIter k s).maxSpeed = s.maxSpeed ∧
    (handlerIter k s).speedInterval = s.speedInterval := by
  induction k generalizing s with
  | zero => exact ⟨rfl, rfl, rfl, rfl⟩
  | succ k ih =>
    obtain ⟨d, mn, mx, iv, -, -, -⟩ := handler_preserved s
    obtain ⟨d', mn', mx', iv'⟩ := ih (StepTimeoutHandler s)
    exact ⟨d'.trans d, mn'.trans mn, mx'.trans mx, iv'.trans iv⟩

theorem handlerIter_currentStep (k : Nat) (s : MState) :
    (handlerIter k s).currentStep =
      if s.dir then s.currentStep + ((min k s.remainingSteps : ℕ) : ℤ)
      else s.currentStep - ((min k s.remainingSteps : ℕ) : ℤ) := by
  induction k generalizing s with
  | zero => simp [handlerIter]
  | succ k ih =>
    show (handlerIter k (StepTimeoutHandler s)).currentStep = _
    rcases Nat.eq_zero_or_pos s.remainingSteps with h0 | hpos
    · rw [handler_zero s h0, ih (Stop s)]
      have e : (Stop s).remainingSteps = s.remainingSteps := rfl
      rw [e, h0]
      simp [Stop]
    · have hne : s.remainingSteps ≠ 0 := by omega
      obtain ⟨hcur, hrem, -, -⟩ := handler_pulse s hne
      obtain ⟨hdir, -, -, -, -, -, -⟩ := handler_preserved s
      rw [ih (StepTimeoutHandler s), hdir, hcur, hrem]
      obtain ⟨m, hm⟩ := Nat.exists_eq_succ_of_ne_zero hne
      rw [hm]
      have e2 : m + 1 - 1 = m := rfl
      rw [e2, Nat.succ_min_succ]
      split_ifs <;> push_cast <;> ring

theorem handlerIter_moving (k : Nat) (s : MState) (h : s.remainingSteps < k) :
    (handlerIter k s).moving = false := by
  induction k generalizing s with
  | zero => omega
  | succ k ih =>
    show (handlerIter k (StepTimeoutHandler s)).moving = false
    rcases Nat.eq_zero_or_pos s.remainingSteps with h0 | hpos
    · rw [handler_zero s h0]
      rcases Nat.eq_zero_or_pos k with hk | hk
      · rw [hk]; rfl
      · exact ih (Stop s) (by show s.remainingSteps < k; omega)
    · have hne : s.remainingSteps ≠ 0 := by omega
      obtain ⟨-, hrem, -, -⟩ := handler_pulse s hne
      exact ih (StepTimeoutHandler s) (by omega)

theorem handlerIter_speed (k : Nat) (s : MState) (hms : s.minSpeed ≤ s.maxSpeed)
    (hint : 0 ≤ s.speedInterval) (h1 : s.minSpeed ≤ s.speed) (h2 : s.speed ≤ s.maxSpeed) :
    s.minSpeed ≤ (handlerIter k s).speed ∧ (handlerIter k s).speed ≤ s.maxSpeed := by
  induction k generalizing s with
  | zero => exact ⟨h1, h2⟩
  | succ k ih =>
    show s.minSpeed ≤ (handlerIter k (StepTimeoutHandler s)).speed ∧ _
    obtain ⟨-, mn, mx, iv, -, -, -⟩ := handler_preserved s
    obtain ⟨b1, b2⟩ := handler_speed_mem s hms hint h1 h2
    have := ih (StepTimeoutHandler s) (by rw [mn, mx]; exact hms) (by rw [iv]; exact hint)
      (by rw [mn]; exact b1) (by rw [mx]; exact b2)
    rw [mn, mx] at this
    exact this

theorem homeLoop_early_code (reads : Nat → Bool) (waits : Nat → List MEvent)
    (phase dirn : Bool) (fuel : Nat) :
    ∀ (i : Nat) (s : MState) (i' : Nat) (c : Int) (s' : MState),
      homeLoop reads waits phase dirn fuel i s = some (.early i' c s') →
      c = TTSTEPPER_ALREADY_MOVING := by
  induction fuel with
  | zero => intro i s i' c s' h; exact Option.noConfusion h
  | succ fuel ih =>
    intro i s i' c s' h
    unfold homeLoop at h
    by_cases hg : reads i = (if phase then !s.invertEndstops else s.invertEndstops)
    · rw [if_pos hg] at h
      rcases hstep : Step s 1000000000 dirn with ⟨code, s1⟩
      simp only [hstep] at h
      by_cases hm : code = TTSTEPPER_ALREADY_MOVING
      · rw [if_pos hm] at h
        have h3 := Option.some.inj h
        rw [LoopOut.early.injEq] at h3
        exact h3.2.1.symm.trans hm
      · rw [if_neg hm] at h
        exact ih (i + 1) _ i' c s' h
    · rw [if_neg hg] at h
      exact LoopOut.noConfusion (Option.some.inj h)

theorem homeBody_success (s s' : MState) (b : Nat) (reads : Nat → Bool)
    (waits : Nat → List MEvent) (f1 f2 : Nat)
    (h : homeBody s b reads waits f1 f2 = some (TTSTEPPER_SUCCESS, s')) :
    s'.currentStep = 0 ∧ s'.endstopHit = 0 ∧ s'.homing = false := by
  unfold homeBody at h
  rcases hl1 : homeLoop reads waits true TTSTEPPER_ANTI_CLOCKWISE f1 0 (Stop s) with - | lo1
  · rw [hl1] at h
    exact Option.noConfusion h
  simp only [hl1] at h
  cases lo1 with
  | early i c sE =>
    have hc := homeLoop_early_code reads waits true TTSTEPPER_ANTI_CLOCKWISE f1 0 (Stop s) i c sE hl1
    simp only [afterSeek] at h
    have h3 : ((c, sE) : Int × MState) = (TTSTEPPER_SUCCESS, s') := Option.some.inj h
    have : c = TTSTEPPER_SUCCESS := congrArg Prod.fst h3
    rw [hc] at this
    exact absurd this (by decide)
  | done i s1 =>
    simp only [afterSeek] at h
    rcases hl2 : homeLoop reads waits false TTSTEPPER_CLOCKWISE f2 i s1 with - | lo2
    · rw [hl2] at h
      exact Option.noConfusion h
    simp only [hl2] at h
    cases lo2 with
    | early j c sE =>
      have hc := homeLoop_early_code reads waits false TTSTEPPER_CLOCKWISE f2 i s1 j c sE hl2
      simp only [afterBounce] at h
      have h3 : ((c, sE) : Int × MState) = (TTSTEPPER_SUCCESS, s') := Option.some.inj h
      have : c = TTSTEPPER_SUCCESS := congrArg Prod.fst h3
      rw [hc] at this
      exact absurd this (by decide)
    | done j s2 =>
      simp only [afterBounce, bounceFinish] at h
      rcases hstep : Step s2 b TTSTEPPER_CLOCKWISE with ⟨code, s3⟩
      simp only [hstep] at h
      split_ifs at h with hr
      · have h3 := Option.some.inj h
        have : code = TTSTEPPER_SUCCESS := congrArg Prod.fst h3
        exact absurd this hr
      · have h3 := Option.some.inj h
        have hs : homeFinish (WaitBlocking s3 (waits j)) = s' := congrArg Prod.snd h3
        rw [← hs]
        exact ⟨rfl, rfl, rfl⟩

theorem Home_success (s0 s' : MState) (b : Nat) (eid : Int) (reads : Nat → Bool)
    (waits : Nat → List MEvent) (f1 f2 : Nat)
    (h : Home s0 b eid reads waits f1 f2 = some (TTSTEPPER_SUCCESS, s')) :
    s'.currentStep = 0 ∧ s'.endstopHit = 0 ∧ s'.homing = false := by
  unfold Home at h
  split_ifs at h with h1 h2 h3 h4
  · have h5 := Option.some.inj h
    have : TTSTEPPER_ENDSTOP_NOT_REGISTERED = TTSTEPPER_SUCCESS := congrArg Prod.fst h5
    exact absurd this (by decide)
  · exact homeBody_success _ s' b reads waits f1 f2 h
  · have h5 := Option.some.inj h
    have : TTSTEPPER_ENDSTOP_NOT_REGISTERED = TTSTEPPER_SUCCESS := congrArg Prod.fst h5
    exact absurd this (by decide)
  · exact homeBody_success _ s' b reads waits f1 f2 h
  · have h5 := Option.some.inj h
    have : TTSTEPPER_INVALID_ID = TTSTEPPER_SUCCESS := congrArg Prod.fst h5
    exact absurd this (by decide)

theorem Step_success (s0 s1 : MState) (steps : Nat) (d : Bool)
    (h : Step s0 steps d = (TTSTEPPER_SUCCESS, s1)) :
    (s0.endstopHit = 0 ∨ s0.homing = true) ∧ s0.moving = false ∧
      s1 = StepTimeoutHandler (armMove s0 steps d) := by
  unfold Step at h
  split_ifs at h with h1 h2
  · have h3 : StepTimeoutHandler (armMove s0 steps d) = s1 := congrArg Prod.snd h
    exact ⟨h1, h2, h3.symm⟩
  · have h3 : TTSTEPPER_ALREADY_MOVING = TTSTEPPER_SUCCESS := congrArg Prod.fst h
    exact absurd h3 (by decide)
  · have h3 : TTSTEPPER_ENDSTOP_HIT = TTSTEPPER_SUCCESS := congrArg Prod.fst h
    exact absurd h3 (by decide)

theorem armMove_fields (s : MState) (steps : Nat) (d : Bool) :
    (armMove s steps d).currentStep = s.currentStep ∧
    (armMove s steps d).remainingSteps = steps ∧
    (armMove s steps d).dir = (if !s.reverse then d else !d) ∧
    (armMove s steps d).moving = true ∧
    (armMove s steps d).speed = s.minSpeed ∧
    (armMove s steps d).minSpeed = s.minSpeed ∧
    (armMove s steps d).maxSpeed = s.maxSpeed ∧
    (armMove s steps d).speedInterval = s.speedInterval ∧
    (armMove s steps d).slowStep =
      (if steps > accelerationStepsOf s * 2 % 2 ^ 32 then accelerationStepsOf s
       else steps / 2) := by
  refine ⟨rfl, rfl, rfl, rfl, rfl, rfl, rfl, rfl, rfl⟩

end Mbed

/-
The claims.
-/

/-- C1: every accepted `Step(N, direction)` call that runs to completion
uninterrupted by an endstop (the synchronous first pulse plus `N` further
timer expiries, no endstop event delivered) with `homing == false` throughout
ends stopped with `|currentStep_after - currentStep_before| = N`. -/
theorem C1_net_step_change (s0 s1 : Mbed.MState) (N : Nat) (d : Bool)
    (hacc : Mbed.Step s0 N d = (TTSTEPPER_SUCCESS, s1)) (hhom : s0.homing = false) :
    (Mbed.handlerIter N s1).moving = false ∧
      ((Mbed.handlerIter N s1).currentStep - s0.currentStep).natAbs = N := by
  obtain ⟨-, -, h1⟩ := Mbed.Step_success s0 s1 N d hacc
  subst h1
  have e : Mbed.handlerIter N (Mbed.StepTimeoutHandler (Mbed.armMove s0 N d))
      = Mbed.handlerIter (N + 1) (Mbed.armMove s0 N d) := rfl
  rw [e]
  obtain ⟨ec, er, -, -, -, -, -, -, -⟩ := Mbed.armMove_fields s0 N d
  refine ⟨Mbed.handlerIter_moving (N + 1) _ (by rw [er]; omega), ?_⟩
  rw [Mbed.handlerIter_currentStep, ec, er]
  have emin : min (N + 1) N = N := by omega
  rw [emin]
  split_ifs <;> omega

/-- Witness for C1: `Step(3, CLOCKWISE)` from `mbedIdle` is accepted and,
after the remaining three timer expiries, the stepper is stopped three steps
clockwise of where it started. -/
theorem C1_net_step_change_witness :
    Mbed.Step mbedIdle 3 true = (TTSTEPPER_SUCCESS, mbedAfterStep3) ∧
      (Mbed.handlerIter 3 mbedAfterStep3).moving = false ∧
      ((Mbed.handlerIter 3 mbedAfterStep3).currentStep - mbedIdle.currentStep).natAbs = 3 := by
  have hacc : Mbed.Step mbedIdle 3 true = (TTSTEPPER_SUCCESS, mbedAfterStep3) := by
    norm_num [Mbed.Step, Mbed.armMove, Mbed.Enable, Mbed.SetEnable, Mbed.StepTimeoutHandler,
      Mbed.pulseState, Mbed.nextSpeed, Mbed.accelerationStepsOf, floatToUInt32, Mbed.Stop,
      TTSTEPPER_SUCCESS, mbedIdle, mbedAfterStep3, Mbed.MState.mk.injEq]
  exact ⟨hacc, C1_net_step_change mbedIdle mbedAfterStep3 3 true hacc rfl⟩

/-- C2 counterexample: the claim says the per-pulse step handler does not
decrement `remainingSteps` while `homing == true`, but the mbed revision's
`StepTimeoutHandler` (a cited source of the claim) decrements it
unconditionally: from `mbedHomingPulse` (`homing = true`,
`remainingSteps = 5`) one pulse leaves 4. -/
theorem C2_counterexample :
    mbedHomingPulse.homing = true ∧ mbedHomingPulse.remainingSteps = 5 ∧
      (Mbed.StepTimeoutHandler mbedHomingPulse).remainingSteps = 4 := by
  refine ⟨rfl, rfl, ?_⟩
  norm_num [Mbed.StepTimeoutHandler, Mbed.pulseState, mbedHomingPulse, mbedIdle]

/-- C2 (amended): only the MBed OS revision suppresses remaining-step
accounting while homing: its `StepISR` leaves `remainingSteps` unchanged by
every pulse while `homing == true` (so a homing move continues until an
endstop interrupt stops it); the mbed revision's `StepTimeoutHandler`
decrements unconditionally, its homing moves being bounded only by the 10^9
step count `Home` requests. -/
theorem C2_amended_homing_no_decrement (t : MbedOS.OState) (hhom : t.homing = true) :
    (MbedOS.StepISR t).remainingSteps = t.remainingSteps := by
  unfold MbedOS.StepISR
  split_ifs with h1 h2
  · show (MbedOS.decremented (MbedOS.pulsedOState t)).remainingSteps = t.remainingSteps
    unfold MbedOS.decremented
    rw [if_neg]
    · rfl
    · have e : (MbedOS.pulsedOState t).homing = t.homing := rfl
      rw [e, hhom]
      simp
  · rfl
  · rfl

/-- Witness for the amended C2 at `osHomingPulse`. -/
theorem C2_amended_homing_no_decrement_witness :
    osHomingPulse.homing = true ∧
      (MbedOS.StepISR osHomingPulse).remainingSteps = osHomingPulse.remainingSteps :=
  ⟨rfl, C2_amended_homing_no_decrement osHomingPulse rfl⟩

/-- C3: with an uncleared endstop hit (`endstopHit != None`) and
`homing == false`, `Step` refuses to start a move: it returns the
`ENDSTOP_HIT` error with the state unchanged (so `moving`, `remainingSteps`,
`speed` and `dir` are all untouched); and with `homing == true` the endstop
guard is bypassed: `Step` never returns `ENDSTOP_HIT`. -/
theorem C3_endstop_guard (s : Mbed.MState) (steps : Nat) (d : Bool) :
    (s.endstopHit ≠ 0 → s.homing = false → Mbed.Step s steps d = (TTSTEPPER_ENDSTOP_HIT, s)) ∧
      (s.homing = true → (Mbed.Step s steps d).1 ≠ TTSTEPPER_ENDSTOP_HIT) := by
  constructor
  · intro h1 h2
    unfold Mbed.Step
    rw [if_neg (by simp [h1, h2])]
  · intro hh
    unfold Mbed.Step
    rw [if_pos (Or.inr hh)]
    split_ifs <;>
      norm_num [TTSTEPPER_SUCCESS, TTSTEPPER_ENDSTOP_HIT, TTSTEPPER_ALREADY_MOVING]

/-- Witness for C3: `Step(5, CLOCKWISE)` on `mbedLatched` (lower endstop
latched, not homing) is refused with `ENDSTOP_HIT` and no state change, while
on `mbedHoming` the guard is bypassed. -/
theorem C3_endstop_guard_witness :
    mbedLatched.endstopHit ≠ 0 ∧ mbedLatched.homing = false ∧
      Mbed.Step mbedLatched 5 true = (TTSTEPPER_ENDSTOP_HIT, mbedLatched) ∧
      mbedHoming.homing = true ∧ (Mbed.Step mbedHoming 5 true).1 ≠ TTSTEPPER_ENDSTOP_HIT :=
  ⟨by decide, rfl, (C3_endstop_guard mbedLatched 5 true).1 (by decide) rfl,
    rfl, (C3_endstop_guard mbedHoming 5 true).2 rfl⟩

/-- C4 counterexample: the claim says `Step` while `moving == true` always
returns `ALREADY_MOVING`, even when `endstopHit != None`; but `Step` checks
the endstop latch first (ttstepper.cpp:271-272), so on `mbedMovingLatched`
(moving, lower endstop latched, not homing) it returns `ENDSTOP_HIT`
instead. -/
theorem C4_counterexample :
    mbedMovingLatched.moving = true ∧ mbedMovingLatched.endstopHit = 1 ∧
      mbedMovingLatched.homing = false ∧
      Mbed.Step mbedMovingLatched 5 true = (TTSTEPPER_ENDSTOP_HIT, mbedMovingLatched) ∧
      TTSTEPPER_ENDSTOP_HIT ≠ TTSTEPPER_ALREADY_MOVING := by
  refine ⟨rfl, rfl, rfl, ?_, by decide⟩
  unfold Mbed.Step
  rw [if_neg (by decide)]

/-- C4 (amended): a `Step` call while a move is in flight never mutates the
state (in particular `remainingSteps` is unchanged), and it returns
`ALREADY_MOVING` (mbed) / `ALREADY_TRAVELLING` (MBed OS) provided the
endstop guard passes — `endstopHit == None`, or `homing == true` in the mbed
revision; with a simultaneously latched endstop it returns `ENDSTOP_HIT`
instead. -/
theorem C4_amended_already_moving (s : Mbed.MState) (t : MbedOS.OState)
    (steps steps2 : Nat) (d d2 : Bool) (hmov : s.moving = true)
    (htrav : t.travelling = true) :
    ((Mbed.Step s steps d).2 = s ∧
      ((s.endstopHit = 0 ∨ s.homing = true) →
        Mbed.Step s steps d = (TTSTEPPER_ALREADY_MOVING, s))) ∧
    ((MbedOS.Step t steps2 d2).2 = t ∧
      (t.endstopHit = 0 →
        MbedOS.Step t steps2 d2 = (MbedOS.TTSTEPPER_ERROR_ALREADY_TRAVELLING, t))) := by
  refine ⟨⟨?_, ?_⟩, ?_, ?_⟩
  · unfold Mbed.Step
    split_ifs with h1 h2
    · exact absurd (hmov.symm.trans h2) (by decide)
    · rfl
    · rfl
  · intro hg
    unfold Mbed.Step
    rw [if_pos hg, if_neg (by rw [hmov]; decide)]
  · unfold MbedOS.Step
    split_ifs with h1 h2
    · exact absurd (htrav.symm.trans h2) (by decide)
    · rfl
    · rfl
  · intro hg
    unfold MbedOS.Step
    rw [if_pos hg, if_neg (by rw [htrav]; decide)]

/-- Witness for the amended C4: a `Step` during the homing move
`mbedHomingPulse` (endstop guard passed via `homing`) and during the plain
travel `osTravelling`. -/
theorem C4_amended_already_moving_witness :
    mbedHomingPulse.moving = true ∧ osTravelling.travelling = true ∧
      Mbed.Step mbedHomingPulse 5 true = (TTSTEPPER_ALREADY_MOVING, mbedHomingPulse) ∧
      MbedOS.Step osTravelling 5 true = (MbedOS.TTSTEPPER_ERROR_ALREADY_TRAVELLING, osTravelling) := by
  have h := C4_amended_already_moving mbedHomingPulse osTravelling 5 5 true true rfl rfl
  exact ⟨rfl, rfl, h.1.2 (Or.inr rfl), h.2.2 rfl⟩

/-- C5 counterexample: the claim (for all cited revisions) fails on the MBed
OS `StepISR`, whose deceleration clamp (ttstepper.cpp:569-573) resets `rps`
to `minRps` only when it fell below `0.0f`: with `0 < minRps = 1/2 ≤ rpsMax
= 1` and `rpsInterval = 2/5 ≥ 0`, the accepted non-homing move
`Step(7, CLOCKWISE)` from `osRampCfg` reaches `rps = 1/5 < minRps` on its
sixth pulse. -/
theorem C5_counterexample :
    osRampCfg.homing = false ∧ 0 < osRampCfg.minRps ∧
      osRampCfg.minRps ≤ osRampCfg.rpsMax ∧ 0 ≤ osRampCfg.rpsInterval ∧
      (MbedOS.Step osRampCfg 7 true).1 = MbedOS.TTSTEPPER_SUCCESS ∧
      (MbedOS.isrIter 5 (MbedOS.Step osRampCfg 7 true).2).rps = 1/5 ∧
      (MbedOS.isrIter 5 (MbedOS.Step osRampCfg 7 true).2).rps < osRampCfg.minRps := by
  refine ⟨rfl, by norm_num [osRampCfg], by norm_num [osRampCfg], by norm_num [osRampCfg],
    ?_, ?_, ?_⟩ <;>
    norm_num [MbedOS.Step, MbedOS.armTravel, MbedOS.StepISR, MbedOS.pulsedOState,
      MbedOS.decremented, MbedOS.nextRps, MbedOS.isrIter, MbedOS.TTSTEPPER_SUCCESS,
      osRampCfg]

/-- C5 (amended): in the mbed revision the bounds hold, with the
configuration-validity assumption `0 ≤ speedInterval` made explicit (with a
negative `speedInterval` the move-start cast
`(uint32_t)((maxSpeed - minSpeed) / speedInterval)` is undefined behaviour in
the C source): throughout every accepted non-homing move with
`0 < minSpeed ≤ maxSpeed`, the speed stays within `[minSpeed, maxSpeed]`
after every pulse.  In the MBed OS revision the lower bound fails (see the
counterexample). -/
theorem C5_amended_speed_bounds (s0 s1 : Mbed.MState) (N : Nat) (d : Bool)
    (hacc : Mbed.Step s0 N d = (TTSTEPPER_SUCCESS, s1)) (hhom : s0.homing = false)
    (hpos : 0 < s0.minSpeed) (hms : s0.minSpeed ≤ s0.maxSpeed)
    (hint : 0 ≤ s0.speedInterval) (k : Nat) :
    s0.minSpeed ≤ (Mbed.handlerIter k s1).speed ∧
      (Mbed.handlerIter k s1).speed ≤ s0.maxSpeed := by
  obtain ⟨-, -, h1⟩ := Mbed.Step_success s0 s1 N d hacc
  subst h1
  have e : Mbed.handlerIter k (Mbed.StepTimeoutHandler (Mbed.armMove s0 N d))
      = Mbed.handlerIter (k + 1) (Mbed.armMove s0 N d) := rfl
  rw [e]
  obtain ⟨-, -, -, -, esp, emn, emx, eiv, -⟩ := Mbed.armMove_fields s0 N d
  have h := Mbed.handlerIter_speed (k + 1) (Mbed.armMove s0 N d)
    (by rw [emn, emx]; exact hms) (by rw [eiv]; exact hint)
    (by rw [emn, esp]) (by rw [emx, esp]; exact hms)
  rw [emn, emx] at h
  exact h

/-- Witness for the amended C5: the spec-scenario configuration, two pulses
into the accepted `Step(3, CLOCKWISE)`. -/
theorem C5_amended_speed_bounds_witness :
    Mbed.Step mbedSpecCfg 3 true = (TTSTEPPER_SUCCESS, mbedSpecAfterStep3) ∧
      mbedSpecCfg.minSpeed ≤ (Mbed.handlerIter 2 mbedSpecAfterStep3).speed ∧
      (Mbed.handlerIter 2 mbedSpecAfterStep3).speed ≤ mbedSpecCfg.maxSpeed := by
  have hacc : Mbed.Step mbedSpecCfg 3 true = (TTSTEPPER_SUCCESS, mbedSpecAfterStep3) := by
    norm_num [Mbed.Step, Mbed.armMove, Mbed.Enable, Mbed.SetEnable, Mbed.StepTimeoutHandler,
      Mbed.pulseState, Mbed.nextSpeed, Mbed.accelerationStepsOf, floatToUInt32, Mbed.Stop,
      TTSTEPPER_SUCCESS, mbedSpecCfg, mbedIdle, mbedSpecAfterStep3, Mbed.MState.mk.injEq]
    decide
  have h := C5_amended_speed_bounds mbedSpecCfg mbedSpecAfterStep3 3 true hacc rfl
    (by norm_num [mbedSpecCfg, mbedIdle]) (by norm_num [mbedSpecCfg, mbedIdle])
    (by norm_num [mbedSpecCfg, mbedIdle]) 2
  exact ⟨hacc, h.1, h.2⟩

/-- Counterexample to C6 as stated: the source's comparison
`steps > accelerationStopStep * 2` (ttstepper.cpp:283) is `uint32_t`
arithmetic, so the product wraps modulo `2^32`.  From `mbedWrapCfg`
(`accelerationStopStep = 2^31`, so the unsigned double is `0`), the accepted
`MoveSteps(300)` arms `slowStep = 2^31 = 2147483648`, not the claimed
`min(accelerationSteps, steps / 2) = 150`. -/
theorem C6_counterexample :
    (Mbed.MoveSteps mbedWrapCfg 300).1 = TTSTEPPER_SUCCESS ∧
      Mbed.accelerationStepsOf mbedWrapCfg = 2147483648 ∧
      (Mbed.MoveSteps mbedWrapCfg 300).2.slowStep = 2147483648 ∧
      (Mbed.MoveSteps mbedWrapCfg 300).2.slowStep
        ≠ min (Mbed.accelerationStepsOf mbedWrapCfg) (300 / 2) := by
  refine ⟨?_, ?_, ?_, ?_⟩
  · norm_num [Mbed.MoveSteps, Mbed.Step, mbedWrapCfg, mbedIdle, TTSTEPPER_SUCCESS,
      TTSTEPPER_ANTI_CLOCKWISE, TTSTEPPER_CLOCKWISE]
  · norm_num [Mbed.accelerationStepsOf, floatToUInt32, mbedWrapCfg, mbedIdle]
    decide
  · norm_num [Mbed.MoveSteps, Mbed.Step, Mbed.armMove, Mbed.Enable, Mbed.SetEnable,
      Mbed.StepTimeoutHandler, Mbed.pulseState, Mbed.nextSpeed, Mbed.accelerationStepsOf,
      floatToUInt32, Mbed.Stop, TTSTEPPER_ANTI_CLOCKWISE, TTSTEPPER_CLOCKWISE,
      mbedWrapCfg, mbedIdle]
    decide
  · have h2 : Mbed.accelerationStepsOf mbedWrapCfg = 2147483648 := by
      norm_num [Mbed.accelerationStepsOf, floatToUInt32, mbedWrapCfg, mbedIdle]
      decide
    have h3 : (Mbed.MoveSteps mbedWrapCfg 300).2.slowStep = 2147483648 := by
      norm_num [Mbed.MoveSteps, Mbed.Step, Mbed.armMove, Mbed.Enable, Mbed.SetEnable,
        Mbed.StepTimeoutHandler, Mbed.pulseState, Mbed.nextSpeed, Mbed.accelerationStepsOf,
        floatToUInt32, Mbed.Stop, TTSTEPPER_ANTI_CLOCKWISE, TTSTEPPER_CLOCKWISE,
        mbedWrapCfg, mbedIdle]
      decide
    rw [h2, h3]
    decide

/-- C6 (amended): at move acceptance the deceleration point is computed once
as `slowStep = min(accelerationSteps, steps / 2)`, where `accelerationSteps =
(uint32_t)((maxSpeed - minSpeed) / speedInterval)`, PROVIDED the `uint32_t`
product `accelerationStopStep * 2` does not wrap
(`accelerationSteps * 2 < 2^32`); without that proviso the source's
`steps > accelerationStopStep * 2` branch compares against the wrapped
product and the `min` form fails (see the counterexample).  In particular
with `maxSpeed = 1.0`, `minSpeed = 0.1`, `accelerationInterval = 0.01` the
acceleration length is 90 steps and `MoveSteps(50)` arms `slowStep = 25`. -/
theorem C6_amended_slowdown_threshold (s0 s1 : Mbed.MState) (steps : Nat)
    (d : Bool) (hacc : Mbed.Step s0 steps d = (TTSTEPPER_SUCCESS, s1))
    (hnw : Mbed.accelerationStepsOf s0 * 2 < 2 ^ 32) :
    s1.slowStep = min (Mbed.accelerationStepsOf s0) (steps / 2) ∧
      Mbed.accelerationStepsOf mbedSpecCfg = 90 ∧
      (Mbed.MoveSteps mbedSpecCfg 50).2.slowStep = 25 := by
  refine ⟨?_, ?_, ?_⟩
  · obtain ⟨-, -, h1⟩ := Mbed.Step_success s0 s1 steps d hacc
    subst h1
    obtain ⟨-, -, -, -, -, -, -, -, esl⟩ := Mbed.armMove_fields s0 steps d
    have hpre := (Mbed.handler_preserved (Mbed.armMove s0 steps d)).2.2.2.2.1
    rw [hpre, esl, Nat.mod_eq_of_lt hnw, Nat.min_def]
    split_ifs <;> omega
  · norm_num [Mbed.accelerationStepsOf, floatToUInt32, mbedSpecCfg, mbedIdle]
    decide
  · norm_num [Mbed.MoveSteps, Mbed.Step, Mbed.armMove, Mbed.Enable, Mbed.SetEnable,
      Mbed.StepTimeoutHandler, Mbed.pulseState, Mbed.nextSpeed, Mbed.accelerationStepsOf,
      floatToUInt32, Mbed.Stop, TTSTEPPER_ANTI_CLOCKWISE, TTSTEPPER_CLOCKWISE,
      mbedSpecCfg, mbedIdle]
    decide

/-- Witness for the amended C6: the general `min` form instantiated on the
accepted `Step(50, CLOCKWISE)` from the spec-scenario configuration, whose
acceleration length 90 is far below the wrap bound. -/
theorem C6_amended_slowdown_threshold_witness :
    (Mbed.Step mbedSpecCfg 50 true).2.slowStep
        = min (Mbed.accelerationStepsOf mbedSpecCfg) (50 / 2) ∧
      Mbed.accelerationStepsOf mbedSpecCfg = 90 ∧
      (Mbed.MoveSteps mbedSpecCfg 50).2.slowStep = 25 :=
  C6_amended_slowdown_threshold mbedSpecCfg (Mbed.Step mbedSpecCfg 50 true).2 50 true
    (by
      have h1 : (Mbed.Step mbedSpecCfg 50 true).1 = TTSTEPPER_SUCCESS := by
        norm_num [Mbed.Step, mbedSpecCfg, mbedIdle, TTSTEPPER_SUCCESS]
      exact Prod.ext h1 rfl)
    (by
      have h2 : Mbed.accelerationStepsOf mbedSpecCfg = 90 := by
        norm_num [Mbed.accelerationStepsOf, floatToUInt32, mbedSpecCfg, mbedIdle]
        decide
      rw [h2]
      decide)

theorem MbedOS.endstopHomedFlag_fields (t : MbedOS.OState) :
    (MbedOS.endstopHomedFlag t).en = t.en ∧
      (MbedOS.endstopHomedFlag t).timerArmed = t.timerArmed ∧
      (MbedOS.endstopHomedFlag t).travelling = t.travelling := by
  unfold MbedOS.endstopHomedFlag
  split_ifs <;> exact ⟨rfl, rfl, rfl⟩

theorem MbedOS.endstopTravelFlag_fields (t : MbedOS.OState) :
    (MbedOS.endstopTravelFlag t).en = t.en ∧
      (MbedOS.endstopTravelFlag t).timerArmed = t.timerArmed ∧
      (MbedOS.endstopTravelFlag t).travelling = false := by
  unfold MbedOS.endstopTravelFlag
  split_ifs with h
  · exact ⟨rfl, rfl, rfl⟩
  · refine ⟨rfl, rfl, ?_⟩
    simpa using h

/-- C7 counterexample: the claim says an endstop triggering edge forces the
enable output de-energized regardless of `activeBraking`; but with
`activeBraking = true` the MBed OS `Endstop` sets the enable output to the
ENERGIZED level `!enActiveLow` (the source comment reads "If non-active
braking, disable the stepper": the level follows `activeBraking`).  The mbed
revision's `Endstop` does not touch the enable output at all. -/
theorem C7_counterexample :
    osBrakingTravel.activeBraking = true ∧ osBrakingTravel.invertEndstops = false ∧
      osBrakingTravel.enActiveLow = true ∧
      (MbedOS.Endstop osBrakingTravel 1 true).en = false ∧
      (MbedOS.Endstop osBrakingTravel 1 true).en ≠ osBrakingTravel.enActiveLow := by
  refine ⟨rfl, rfl, rfl, ?_, ?_⟩ <;>
    norm_num [MbedOS.Endstop, MbedOS.endstopStopped, MbedOS.endstopHomedFlag,
      MbedOS.endstopTravelFlag, osBrakingTravel, osRampCfg]

/-- C7 (amended): on a triggering edge (after applying `invertEndstops`) both
handlers cancel the pending timer, clear the moving/travelling flag and
record the hit, but neither forces the enable output de-energized: the mbed
handler leaves the enable output unchanged, and the MBed OS handler sets it
according to `activeBraking` (de-energized exactly when `activeBraking` is
false). -/
theorem C7_amended_endstop_actions (s : Mbed.MState) (t : MbedOS.OState) (id id2 : Int)
    (rise rise2 : Bool) (h1 : (if s.invertEndstops then !rise else rise) = true)
    (h2 : (if t.invertEndstops then !rise2 else rise2) = true) :
    ((Mbed.Endstop s id rise).en = s.en ∧
      (Mbed.Endstop s id rise).moving = false ∧
      (Mbed.Endstop s id rise).timerArmed = false ∧
      (Mbed.Endstop s id rise).endstopHit = id) ∧
    ((MbedOS.Endstop t id2 rise2).en
        = (if t.activeBraking then !t.enActiveLow else t.enActiveLow) ∧
      (MbedOS.Endstop t id2 rise2).travelling = false ∧
      (MbedOS.Endstop t id2 rise2).timerArmed = false ∧
      (MbedOS.Endstop t id2 rise2).endstopHit = id2) := by
  constructor
  · unfold Mbed.Endstop
    rw [if_pos h1]
    exact ⟨rfl, rfl, rfl, rfl⟩
  · unfold MbedOS.Endstop
    rw [if_pos h2]
    obtain ⟨te, tt, tv⟩ :=
      MbedOS.endstopTravelFlag_fields (MbedOS.endstopHomedFlag (MbedOS.endstopStopped t))
    obtain ⟨he, ht, -⟩ := MbedOS.endstopHomedFlag_fields (MbedOS.endstopStopped t)
    refine ⟨?_, ?_, ?_, rfl⟩
    · show (MbedOS.endstopTravelFlag (MbedOS.endstopHomedFlag (MbedOS.endstopStopped t))).en = _
      rw [te, he]
      rfl
    · exact tv
    · show (MbedOS.endstopTravelFlag
        (MbedOS.endstopHomedFlag (MbedOS.endstopStopped t))).timerArmed = false
      rw [tt, ht]
      rfl

/-- Witness for the amended C7 on concrete triggering edges. -/
theorem C7_amended_endstop_actions_witness :
    ((Mbed.Endstop mbedHomingPulse 1 true).en = mbedHomingPulse.en ∧
      (Mbed.Endstop mbedHomingPulse 1 true).moving = false ∧
      (Mbed.Endstop mbedHomingPulse 1 true).timerArmed = false ∧
      (Mbed.Endstop mbedHomingPulse 1 true).endstopHit = 1) ∧
    ((MbedOS.Endstop osBrakingTravel 1 true).en
        = (if osBrakingTravel.activeBraking then !osBrakingTravel.enActiveLow
           else osBrakingTravel.enActiveLow) ∧
      (MbedOS.Endstop osBrakingTravel 1 true).travelling = false ∧
      (MbedOS.Endstop osBrakingTravel 1 true).timerArmed = false ∧
      (MbedOS.Endstop osBrakingTravel 1 true).endstopHit = 1) :=
  C7_amended_endstop_actions mbedHomingPulse osBrakingTravel 1 1 true true
    (by decide) (by decide)

/-- C8 (claim right, code wrong — the spec's design notes flag this revision
as inconsistent): with `invertEndstops = false`, a high level is the
triggering polarity (`triggeredLevel`), yet the Seek loop guard
`endstop->read() == !invertEndstops` (`seekContinue`) continues exactly while
the endstop reads TRIGGERED and exits once it reads released, and the Bounce
guard `endstop->read() == invertEndstops` (`bounceContinue`) continues while
it reads RELEASED — each the opposite of the claimed (and specified)
behaviour.  Consequently a homing run whose endstop starts released performs
a zero-iteration seek: `homeLoop` exits immediately with the state
untouched. -/
theorem C8_seek_bounce_polarity_bug :
    (Mbed.triggeredLevel mbedIdle true = true ∧ Mbed.seekContinue mbedIdle true = true) ∧
      (Mbed.triggeredLevel mbedIdle false = false ∧ Mbed.seekContinue mbedIdle false = false) ∧
      (Mbed.bounceContinue mbedIdle false = true ∧ Mbed.bounceContinue mbedIdle true = false) ∧
      Mbed.homeLoop (fun _ => false) (fun _ => []) true TTSTEPPER_ANTI_CLOCKWISE 5 0 mbedIdle
        = some (.done 1 mbedIdle) := by
  refine ⟨⟨by decide, by decide⟩, ⟨by decide, by decide⟩, ⟨by decide, by decide⟩, ?_⟩
  norm_num [Mbed.homeLoop, mbedIdle]

/-- C9 (amended): when `Home` returns success the final state has
`currentStep = 0`, `endstopHit = None` and `homing = false` (mbed revision,
for every bounce count, endstop id, environment and fuel); and a `Home` call
issued while a homing run is already in progress returns `ALREADY_HOMING`
with the state untouched in the MBed OS revision only — the mbed revision
has no such guard (see the counterexample). -/
theorem C9_amended_home_postconditions (s0 s' : Mbed.MState) (b : Nat) (eid : Int)
    (reads : Nat → Bool) (waits : Nat → List Mbed.MEvent) (f1 f2 : Nat)
    (t : MbedOS.OState) (d2 : Bool) (evs : List MbedOS.OEvent)
    (hsucc : Mbed.Home s0 b eid reads waits f1 f2 = some (TTSTEPPER_SUCCESS, s'))
    (hOS : t.homing = true) :
    (s'.currentStep = 0 ∧ s'.endstopHit = 0 ∧ s'.homing = false) ∧
      MbedOS.Home t d2 evs = (MbedOS.TTSTEPPER_ALREADY_HOMING, t) := by
  refine ⟨Mbed.Home_success s0 s' b eid reads waits f1 f2 hsucc, ?_⟩
  unfold MbedOS.Home
  rw [if_pos hOS]

set_option maxHeartbeats 4000000 in
/-- Witness for the amended C9: the concrete successful `Home(2, LOWER)` run
from `mbedIdle` under the `homeReads`/`homeWaits` environment, and a
re-entrant MBed OS `Home` on `osHomingActive`. -/
theorem C9_amended_home_postconditions_witness :
    Mbed.Home mbedIdle 2 1 homeReads homeWaits 5 5
        = some (TTSTEPPER_SUCCESS, mbedHomeFinal) ∧
      osHomingActive.homing = true ∧
      (mbedHomeFinal.currentStep = 0 ∧ mbedHomeFinal.endstopHit = 0 ∧
        mbedHomeFinal.homing = false) ∧
      MbedOS.Home osHomingActive false [] = (MbedOS.TTSTEPPER_ALREADY_HOMING, osHomingActive) := by
  have hs : Mbed.Home mbedIdle 2 1 homeReads homeWaits 5 5
      = some (TTSTEPPER_SUCCESS, mbedHomeFinal) := by
    have e0 : Mbed.Home mbedIdle 2 1 homeReads homeWaits 5 5
        = Mbed.homeBody { mbedIdle with homing := true } 2 homeReads homeWaits 5 5 := by
      simp [Mbed.Home, mbedIdle, TTSTEPPER_LOWER_ENDSTOP]
    have eStop : Mbed.Stop { mbedIdle with homing := true } = wStopped := by
      norm_num [Mbed.Stop, mbedIdle, wStopped, Mbed.MState.mk.injEq]
    have gSA : Mbed.Step wStopped 1000000000 TTSTEPPER_ANTI_CLOCKWISE
        = (TTSTEPPER_SUCCESS, wSeekStep) := by
      norm_num [Mbed.Step, Mbed.armMove, Mbed.Enable, Mbed.SetEnable,
        Mbed.StepTimeoutHandler, Mbed.pulseState, Mbed.nextSpeed, Mbed.accelerationStepsOf,
        floatToUInt32, TTSTEPPER_SUCCESS, TTSTEPPER_ANTI_CLOCKWISE, TTSTEPPER_CLOCKWISE,
        mbedIdle, Mbed.MState.mk.injEq, wStopped, wSeekStep]
    have gSW : Mbed.WaitBlocking wSeekStep (homeWaits 0) = wSeekEnd := by
      norm_num [Mbed.WaitBlocking, Mbed.applyEvents, Mbed.applyEvent, Mbed.Endstop,
        Mbed.Stop, Mbed.StepTimeoutHandler, Mbed.pulseState, Mbed.nextSpeed,
        TTSTEPPER_LOWER_ENDSTOP, TTSTEPPER_UPPER_ENDSTOP, List.foldl, mbedIdle,
        Mbed.MState.mk.injEq, homeWaits, wSeekStep, wSeekEnd]
    have gBA : Mbed.Step wSeekEnd 1000000000 TTSTEPPER_CLOCKWISE
        = (TTSTEPPER_SUCCESS, wBounceStep) := by
      norm_num [Mbed.Step, Mbed.armMove, Mbed.Enable, Mbed.SetEnable,
        Mbed.StepTimeoutHandler, Mbed.pulseState, Mbed.nextSpeed, Mbed.accelerationStepsOf,
        floatToUInt32, TTSTEPPER_SUCCESS, TTSTEPPER_ANTI_CLOCKWISE, TTSTEPPER_CLOCKWISE,
        mbedIdle, Mbed.MState.mk.injEq, wSeekEnd, wBounceStep]
    have gBW : Mbed.WaitBlocking wBounceStep (homeWaits 2) = wBounceEnd := by
      norm_num [Mbed.WaitBlocking, Mbed.applyEvents, Mbed.applyEvent, Mbed.Endstop,
        Mbed.Stop, Mbed.StepTimeoutHandler, Mbed.pulseState, Mbed.nextSpeed,
        TTSTEPPER_LOWER_ENDSTOP, TTSTEPPER_UPPER_ENDSTOP, List.foldl, mbedIdle,
        Mbed.MState.mk.injEq, homeWaits, wBounceStep, wBounceEnd]
    have gFA : Mbed.Step wBounceEnd 2 TTSTEPPER_CLOCKWISE
        = (TTSTEPPER_SUCCESS, wFinalStep) := by
      norm_num [Mbed.Step, Mbed.armMove, Mbed.Enable, Mbed.SetEnable,
        Mbed.StepTimeoutHandler, Mbed.pulseState, Mbed.nextSpeed, Mbed.accelerationStepsOf,
        floatToUInt32, TTSTEPPER_SUCCESS, TTSTEPPER_ANTI_CLOCKWISE, TTSTEPPER_CLOCKWISE,
        mbedIdle, Mbed.MState.mk.injEq, wBounceEnd, wFinalStep]
    have gFW : Mbed.WaitBlocking wFinalStep (homeWaits 4) = wDone := by
      norm_num [Mbed.WaitBlocking, Mbed.applyEvents, Mbed.applyEvent, Mbed.Endstop,
        Mbed.Stop, Mbed.StepTimeoutHandler, Mbed.pulseState, Mbed.nextSpeed,
        TTSTEPPER_LOWER_ENDSTOP, TTSTEPPER_UPPER_ENDSTOP, List.foldl, mbedIdle,
        Mbed.MState.mk.injEq, homeWaits, wFinalStep, wDone]
    have gFin : Mbed.homeFinish wDone = mbedHomeFinal := by
      norm_num [Mbed.homeFinish, Mbed.ClearEndstopHit, wDone, mbedHomeFinal, mbedIdle,
        Mbed.MState.mk.injEq]
    have p0 : wStopped.invertEndstops = false := rfl
    have p1 : wSeekEnd.invertEndstops = false := rfl
    have p2 : wBounceEnd.invertEndstops = false := rfl
    have e1 : Mbed.homeLoop homeReads homeWaits true TTSTEPPER_ANTI_CLOCKWISE 5 0 wStopped
        = some (.done 2 wSeekEnd) := by
      simp [Mbed.homeLoop, gSA, gSW, homeReads, p0, p1,
        TTSTEPPER_SUCCESS, TTSTEPPER_ALREADY_MOVING]
    have e2 : Mbed.homeLoop homeReads homeWaits false TTSTEPPER_CLOCKWISE 5 2 wSeekEnd
        = some (.done 4 wBounceEnd) := by
      simp [Mbed.homeLoop, gBA, gBW, homeReads, p1, p2,
        TTSTEPPER_SUCCESS, TTSTEPPER_ALREADY_MOVING]
    rw [e0]
    unfold Mbed.homeBody
    simp only [eStop, e1, Mbed.afterSeek, e2, Mbed.afterBounce, Mbed.bounceFinish, gFA]
    rw [if_neg (by decide), gFW, gFin]
  have h := C9_amended_home_postconditions mbedIdle mbedHomeFinal 2 1 homeReads homeWaits
    5 5 osHomingActive false [] hs rfl
  exact ⟨hs, rfl, h.1, h.2⟩

set_option maxHeartbeats 4000000 in
/-- C9 counterexample: the mbed `Home` has no re-entrancy guard: issued while
`mbedHomingRun` is already homing (with its homing move in flight), it does
not return an AlreadyHoming error — it calls `Stop()` (killing the in-flight
move) and runs the whole protocol itself, here to completion: it returns
`SUCCESS` (0), which differs from the MBed OS `ALREADY_HOMING` code (-9);
the mbed header defines no AlreadyHoming code at all. -/
theorem C9_counterexample :
    mbedHomingRun.homing = true ∧ mbedHomingRun.moving = true ∧
      Mbed.Home mbedHomingRun 2 1 hijackReads hijackWaits 5 5
        = some (TTSTEPPER_SUCCESS, hijackFinal) ∧
      TTSTEPPER_SUCCESS ≠ MbedOS.TTSTEPPER_ALREADY_HOMING := by
  refine ⟨rfl, rfl, ?_, by decide⟩
  have e0 : Mbed.Home mbedHomingRun 2 1 hijackReads hijackWaits 5 5
      = Mbed.homeBody { mbedHomingRun with homing := true } 2 hijackReads hijackWaits 5 5 := by
    simp [Mbed.Home, mbedHomingRun, mbedIdle, TTSTEPPER_LOWER_ENDSTOP]
  have eStop : Mbed.Stop { mbedHomingRun with homing := true } = hSeekEnd := by
    norm_num [Mbed.Stop, mbedHomingRun, mbedIdle, hSeekEnd, Mbed.MState.mk.injEq]
  have gBA : Mbed.Step hSeekEnd 1000000000 TTSTEPPER_CLOCKWISE
      = (TTSTEPPER_SUCCESS, hBounceStep) := by
    norm_num [Mbed.Step, Mbed.armMove, Mbed.Enable, Mbed.SetEnable,
        Mbed.StepTimeoutHandler, Mbed.pulseState, Mbed.nextSpeed, Mbed.accelerationStepsOf,
        floatToUInt32, TTSTEPPER_SUCCESS, TTSTEPPER_ANTI_CLOCKWISE, TTSTEPPER_CLOCKWISE,
        mbedIdle, Mbed.MState.mk.injEq, hSeekEnd, hBounceStep]
  have gBW : Mbed.WaitBlocking hBounceStep (hijackWaits 1) = hBounceEnd := by
    norm_num [Mbed.WaitBlocking, Mbed.applyEvents, Mbed.applyEvent, Mbed.Endstop,
        Mbed.Stop, Mbed.StepTimeoutHandler, Mbed.pulseState, Mbed.nextSpeed,
        TTSTEPPER_LOWER_ENDSTOP, TTSTEPPER_UPPER_ENDSTOP, List.foldl, mbedIdle,
        Mbed.MState.mk.injEq, hijackWaits, hBounceStep, hBounceEnd]
  have gFA : Mbed.Step hBounceEnd 2 TTSTEPPER_CLOCKWISE
      = (TTSTEPPER_SUCCESS, hFinalStep) := by
    norm_num [Mbed.Step, Mbed.armMove, Mbed.Enable, Mbed.SetEnable,
        Mbed.StepTimeoutHandler, Mbed.pulseState, Mbed.nextSpeed, Mbed.accelerationStepsOf,
        floatToUInt32, TTSTEPPER_SUCCESS, TTSTEPPER_ANTI_CLOCKWISE, TTSTEPPER_CLOCKWISE,
        mbedIdle, Mbed.MState.mk.injEq, hBounceEnd, hFinalStep]
  have gFW : Mbed.WaitBlocking hFinalStep (hijackWaits 3) = hDone := by
    norm_num [Mbed.WaitBlocking, Mbed.applyEvents, Mbed.applyEvent, Mbed.Endstop,
        Mbed.Stop, Mbed.StepTimeoutHandler, Mbed.pulseState, Mbed.nextSpeed,
        TTSTEPPER_LOWER_ENDSTOP, TTSTEPPER_UPPER_ENDSTOP, List.foldl, mbedIdle,
        Mbed.MState.mk.injEq, hijackWaits, hFinalStep, hDone]
  have gFin : Mbed.homeFinish hDone = hijackFinal := by
    norm_num [Mbed.homeFinish, Mbed.ClearEndstopHit, hDone, hijackFinal, mbedIdle,
      Mbed.MState.mk.injEq]
  have p0 : hSeekEnd.invertEndstops = false := rfl
  have p1 : hBounceEnd.invertEndstops = false := rfl
  have e1 : Mbed.homeLoop hijackReads hijackWaits true TTSTEPPER_ANTI_CLOCKWISE 5 0 hSeekEnd
      = some (.done 1 hSeekEnd) := by
    simp [Mbed.homeLoop, hijackReads, p0]
  have e2 : Mbed.homeLoop hijackReads hijackWaits false TTSTEPPER_CLOCKWISE 5 1 hSeekEnd
      = some (.done 3 hBounceEnd) := by
    simp [Mbed.homeLoop, gBA, gBW, hijackReads, p0, p1,
      TTSTEPPER_SUCCESS, TTSTEPPER_ALREADY_MOVING]
  rw [e0]
  unfold Mbed.homeBody
  simp only [eStop, e1, Mbed.afterSeek, e2, Mbed.afterBounce, Mbed.bounceFinish, gFA]
  rw [if_neg (by decide), gFW, gFin]

/-- C10: `MoveSteps(n)` passes its signed `long` argument to
`Step(uint32_t steps, ...)`, so a negative `n` selects the anticlockwise
direction but arms a move of `n mod 2^32` steps, not `|n|`; e.g.
`MoveSteps(-50)` arms a move of 4294967246 steps (4294967245 remaining right
after the accepted call, the synchronous first pulse having consumed one),
stepping anticlockwise. -/
theorem C10_movesteps_negative_conversion (s : Mbed.MState) (n : Int) (hneg : n < 0) :
    Mbed.MoveSteps s n = Mbed.Step s (n % (2 : Int) ^ 32).toNat TTSTEPPER_ANTI_CLOCKWISE ∧
      ((-50 : Int) % (2 : Int) ^ 32).toNat = 4294967246 ∧
      (Mbed.MoveSteps mbedIdle (-50)).1 = TTSTEPPER_SUCCESS ∧
      (Mbed.MoveSteps mbedIdle (-50)).2.remainingSteps = 4294967245 ∧
      (Mbed.MoveSteps mbedIdle (-50)).2.dir = TTSTEPPER_ANTI_CLOCKWISE := by
  refine ⟨?_, by decide, ?_, ?_, ?_⟩
  · unfold Mbed.MoveSteps
    rw [if_pos hneg]
  all_goals
    norm_num [Mbed.MoveSteps, Mbed.Step, Mbed.armMove, Mbed.Enable, Mbed.SetEnable,
      Mbed.StepTimeoutHandler, Mbed.pulseState, Mbed.nextSpeed, Mbed.accelerationStepsOf,
      floatToUInt32, Mbed.Stop, TTSTEPPER_SUCCESS, TTSTEPPER_ANTI_CLOCKWISE,
      TTSTEPPER_CLOCKWISE, mbedIdle]
  all_goals decide

/-- Witness for C10 at `n = -50`. -/
theorem C10_movesteps_negative_conversion_witness :
    Mbed.MoveSteps mbedIdle (-50)
        = Mbed.Step mbedIdle ((-50 : Int) % (2 : Int) ^ 32).toNat TTSTEPPER_ANTI_CLOCKWISE ∧
      ((-50 : Int) % (2 : Int) ^ 32).toNat = 4294967246 ∧
      (Mbed.MoveSteps mbedIdle (-50)).2.remainingSteps = 4294967245 :=
  have h := C10_movesteps_negative_conversion mbedIdle (-50) (by decide)
  ⟨h.1, h.2.1, h.2.2.2.1⟩
